import Mathlib

/-!
Verification development for the shuttle-bot ride lifecycle and timer
subsystem (src/app/services/timer.py, src/app/services/ride.py,
src/app/services/ticket.py, src/app/services/stop.py and the repositories
they call).

Modelling conventions:
* uuid values and Telegram chat ids are modelled as Nat.
* Unix timestamps are Nat (seconds).
* The relational store is a record of lists (rides, stops, tickets); a
  SQLAlchemy session.execute of an UPDATE is a map over the list.
* The key-value store (redis) entries used by the timer registry are an
  association list from timer id to the persisted record.
* Fallible store calls return Except StoreErr; the constructors name the
  concrete sqlalchemy exception classes that arise, all of which are
  subclasses of SQLAlchemyError and hence are caught by the services
  except-SQLAlchemyError clauses.
* Async callbacks cannot be serialised; the persisted payload carries a
  dispatch tag (HandlerTag) standing for the bound-method reference the
  source stores under the key _on_expired.
-/

/-- Lookup in an association list keyed by Nat (models dict access and
redis get). -/
def lookupKey {α : Type} (k : Nat) : List (Nat × α) → Option α
  | [] => none
  | (k', v) :: rest => if k' = k then some v else lookupKey k rest

/-- Remove every binding of a key (models dict del and redis delete). -/
def eraseKey {α : Type} (k : Nat) : List (Nat × α) → List (Nat × α)
  | [] => []
  | p :: rest => if p.1 = k then eraseKey k rest else p :: eraseKey k rest

/-- Set a key to a value (models dict assignment and redis set). -/
def setKey {α : Type} (k : Nat) (v : α) (l : List (Nat × α)) : List (Nat × α) :=
  (k, v) :: eraseKey k l

/-- Number of bindings of a key in an association list. -/
def countKey {α : Type} (k : Nat) : List (Nat × α) → Nat
  | [] => 0
  | p :: rest => (if p.1 = k then 1 else 0) + countKey k rest

/-- Ride status column (app/models/ride.py). -/
inductive RideStatus
  | CREATED
  | IN_PROGRESS
  | FINISHED
  | CANCELLED
deriving DecidableEq

/-- Ticket status column (app/models/ticket.py). -/
inductive TicketStatus
  | PENDING
  | BOARDED
  | ABSENT
deriving DecidableEq

/-- Ride row (app/models/ride.py).  Timestamp columns are omitted: no claim
mentions them. -/
structure Ride where
  id : Nat
  status : RideStatus
  currentStopId : Option Nat
  nextStopId : Nat
  driverId : Nat
  timerStarted : Bool
deriving DecidableEq

/-- Stop row (app/models/stop.py).  Coordinates are floats in the source;
they are carried here as integers and are only consumed by the abstract
distance argument of find_stop_in_radius. -/
structure Stop where
  id : Nat
  name : String
  latitude : Int
  longitude : Int
  order : Nat
  isActive : Bool
deriving DecidableEq

/-- Ticket row (app/models/ticket.py).  The table carries a unique
constraint on (user_id, ride_id). -/
structure Ticket where
  id : Nat
  status : TicketStatus
  rideId : Nat
  stopId : Nat
  userId : Nat
deriving DecidableEq

/-- The relational store. -/
structure DB where
  rides : List Ride
  stops : List Stop
  tickets : List Ticket
deriving DecidableEq

/-- Store-level failures.  Every constructor names a concrete sqlalchemy
exception class; all of them subclass SQLAlchemyError, so the
except-SQLAlchemyError clauses of the services catch each of them. -/
inductive StoreErr
  | noResultFound
  | multipleResults
  | resourceClosed
  | argumentErr
  | invalidRequest
deriving DecidableEq

/-- Settings defaults (app/settings.py). -/
def WAIT_TIMER_SECONDS : Nat := 180

/-- Settings default for the grace window (app/settings.py). -/
def BOARDED_GRACE_SECONDS : Nat := 30

/-- Settings default for the geofence radius (app/settings.py). -/
def STOP_RADIUS_METERS : Nat := 50

/-- Settings default for the per-driver debounce (app/settings.py). -/
def GPS_DEBOUNCE_SECONDS : Nat := 5

/-- Timer type tag; the source passes the strings wait and grace. -/
inductive TimerType
  | wait
  | grace
deriving DecidableEq

/-- Dispatch tag standing for the bound method stored in the payload under
the key _on_expired (RideService.on_wait_timer_expired or
RideService.on_grace_timer_expired). -/
inductive HandlerTag
  | waitExpired
  | graceExpired
deriving DecidableEq

/-- Timer payload: the source passes a dict holding the ride and stop
snapshots, for wait timers a chat-to-message-id mapping, and the
_on_expired handler reference.  Note: the source puts live ORM objects and
a bound method in this dict; json.dumps of such a dict raises TypeError,
so only the plain-data shape below is ever representable in the durable
registry. -/
structure Payload where
  ride : Ride
  stop : Stop
  timerMessages : List (Nat × Nat)
  onExpiredTag : Option HandlerTag
deriving DecidableEq

/-- Persisted timer record, the JSON value stored under the redis key
timer:<id> by TimerService.__save_timer_state. -/
structure TimerRecord where
  timerType : TimerType
  duration : Nat
  endAt : Nat
  payload : Payload
deriving DecidableEq

/-- An in-process countdown task created by asyncio.create_task on
TimerService._run.  The on_expired argument of _run is not recorded: _run
ignores it and dispatches expiry through payload._on_expired (see
TimerService.__call_expired_safely). -/
structure LiveTimer where
  duration : Nat
  hasTick : Bool
  payload : Payload
deriving DecidableEq

/-- In-memory plus durable state of the Ride Timer Engine:
self.__active_timers and the redis keys timer:*. -/
structure TimerState where
  activeTimers : List (Nat × LiveTimer)
  redis : List (Nat × TimerRecord)
deriving DecidableEq

/-- TimerService.start_timer (src/app/services/timer.py, lines 25 to 75).
If the timer id is already registered the call logs and returns (the
duplicate guard).  Otherwise __save_timer_state writes the record with
end_at = now + duration (and TTL duration + 60, not modelled), then a task
running _run is created and registered.  Redis write failures would abort
the registration; the success path is modelled. -/
def TimerService.start_timer (s : TimerState) (timer_id : Nat)
    (timer_type : TimerType) (duration : Nat) (hasOnTick : Bool)
    (payload : Payload) (now : Nat) : TimerState :=
  if (lookupKey timer_id s.activeTimers).isSome then s
  else
    let recd : TimerRecord :=
      { timerType := timer_type, duration := duration,
        endAt := now + duration, payload := payload }
    let task : LiveTimer :=
      { duration := duration, hasTick := hasOnTick, payload := payload }
    { activeTimers := setKey timer_id task s.activeTimers,
      redis := setKey timer_id recd s.redis }

/-- TimerService.stop_timer: cancel the in-process task and delete the
durable record. -/
def TimerService.stop_timer (s : TimerState) (timer_id : Nat) : TimerState :=
  { activeTimers := eraseKey timer_id s.activeTimers,
    redis := eraseKey timer_id s.redis }

/-- Observable events of one uncancelled execution of TimerService._run. -/
inductive RunEvent
  | tick (remaining : Nat) (t : Nat)
  | expired (t : Nat)
deriving DecidableEq

/-- Event trace of TimerService._run for one task that runs to completion
(src/app/services/timer.py, lines 133 to 172): the loop counts remaining
from duration down to 1, invoking on_tick (when supplied) before each
one-second sleep, so the tick with value duration - k happens k seconds
in; after the final sleep the expiry dispatch runs at duration seconds.
The finally block then removes the in-memory and durable state. -/
def runTrace (lt : LiveTimer) : List RunEvent :=
  (if lt.hasTick then
    (List.range lt.duration).map (fun k => RunEvent.tick (lt.duration - k) k)
   else []) ++ [RunEvent.expired lt.duration]

/-- Observable events of TimerService.restore_all_timers: each value
records that __call_expired_safely ran for the given timer id, carrying
the dispatch tag stored in the payload (the handler runs when the tag is
present; its own failures are caught). -/
inductive RestoreEvent
  | expiredInvoked (timerId : Nat) (tag : Option HandlerTag)
deriving DecidableEq

/-- Test whether a restore event is the expiry invocation for the given
timer id. -/
def isExpiredFor (id : Nat) : RestoreEvent → Bool
  | RestoreEvent.expiredInvoked i _ => i == id

/-- Count of expiry invocations for one timer id in a restore trace. -/
def countExpired (id : Nat) (evs : List RestoreEvent) : Nat :=
  (evs.filter (isExpiredFor id)).length

/-- Loop body of TimerService.restore_all_timers (src/app/services/timer.py,
lines 91 to 131) over the snapshot of redis keys from scan_iter.  For each
key the record is reloaded (skip if gone); remaining = end_at - now; when
remaining is not positive the durable record is deleted and
__call_expired_safely(payload) runs; otherwise a task is recreated with
duration = remaining and on_tick = None (ticks are not restored), its
expiry again dispatched through the payload. -/
def restoreLoop (now : Nat) : List Nat → TimerState → TimerState × List RestoreEvent
  | [], s => (s, [])
  | id :: rest, s =>
    match lookupKey id s.redis with
    | none => restoreLoop now rest s
    | some recd =>
      if recd.endAt ≤ now then
        ((restoreLoop now rest { s with redis := eraseKey id s.redis }).1,
         RestoreEvent.expiredInvoked id recd.payload.onExpiredTag ::
           (restoreLoop now rest { s with redis := eraseKey id s.redis }).2)
      else
        restoreLoop now rest
          { s with activeTimers := setKey id (LiveTimer.mk (recd.endAt - now) false recd.payload) s.activeTimers }

/-- TimerService.restore_all_timers: run the restoration loop over every
persisted timer key. -/
def TimerService.restore_all_timers (s : TimerState) (now : Nat) :
    TimerState × List RestoreEvent :=
  restoreLoop now (s.redis.map Prod.fst) s

/-- StopRepository.get_by_order: select(Stop).filter_by(order=order) and
result.scalar_one().  scalar_one raises NoResultFound on zero rows and
MultipleResultsFound on more than one; both subclass SQLAlchemyError. -/
def StopRepository.get_by_order (db : DB) (order : Nat) : Except StoreErr Stop :=
  match db.stops.filter (fun s => s.order == order) with
  | [s] => Except.ok s
  | [] => Except.error StoreErr.noResultFound
  | _ => Except.error StoreErr.multipleResults

/-- RideRepository.save: session.add plus flush, an upsert keyed by the
primary key (the ORM identity). -/
def RideRepository.save (db : DB) (r : Ride) : DB :=
  if db.rides.any (fun x => x.id == r.id) then
    { db with rides := db.rides.map (fun x => if x.id = r.id then r else x) }
  else
    { db with rides := db.rides ++ [r] }

/-- RideRepository.update_ride_stops (src/app/repositories/ride.py, lines
50 to 69).  The UPDATE statement sets current_stop_id and next_stop_id for
the ride and executes; but the statement was built with .returning() given
NO columns, so the executed statement has no RETURNING clause and the
result returns no rows; the subsequent result.scalar_one() then raises
ResourceClosedError (a SQLAlchemyError).  The rows are updated and the
caller sees the exception. -/
def RideRepository.update_ride_stops (db : DB) (rideId currentStopId nextStopId : Nat) :
    DB × Except StoreErr Unit :=
  let db' : DB :=
    { db with rides := db.rides.map (fun r =>
        if r.id = rideId then
          { r with currentStopId := some currentStopId, nextStopId := nextStopId }
        else r) }
  (db', Except.error StoreErr.resourceClosed)

/-- RideRepository.get_by_status: select(Ride).filter_by(status=...)
limit 1 and scalar_one, which raises NoResultFound on zero rows. -/
def RideRepository.get_by_status (db : DB) (status : RideStatus) : Except StoreErr Ride :=
  match (db.rides.filter (fun r => r.status == status)).head? with
  | some r => Except.ok r
  | none => Except.error StoreErr.noResultFound

/-- RideRepository.get_users_by_ride: select(User) joined to Ticket on
user id, filtered by the ticket ride_id; one row per ticket of the ride
(the unique (user_id, ride_id) constraint makes the users distinct).  Only
the user id is consumed by the caller (as the chat id), so the result is
the list of ids. -/
def RideRepository.get_users_by_ride (db : DB) (rideId : Nat) : List Nat :=
  (db.tickets.filter (fun t => t.rideId == rideId)).map (fun t => t.userId)

/-- TicketRepository.get_cnt_of_pending_tickets_by_stop
(src/app/repositories/ticket.py, lines 49 to 59).  The where clause writes
Ride.current_stop == stop_id: current_stop is the relationship attribute
(the column is current_stop_id), and sqlalchemy relationship comparison
accepts only a mapped instance or None; handed a plain uuid it raises
ArgumentError (message: Mapped instance expected for relationship
comparison to object) while the query is being built, before any rows are
read.  Every call therefore fails with a SQLAlchemyError. -/
def TicketRepository.get_cnt_of_pending_tickets_by_stop (db : DB) (stopId : Nat) :
    Except StoreErr Nat :=
  Except.error StoreErr.argumentErr

/-- TicketRepository.mark_absent_not_boarded_tickets
(src/app/repositories/ticket.py, lines 31 to 47): UPDATE tickets SET
status = ABSENT WHERE ride_id = :ride AND stop_id = :stop AND
status != BOARDED; a plain execute with no fetch, so it succeeds. -/
def TicketRepository.mark_absent_not_boarded_tickets (db : DB) (rideId stopId : Nat) : DB :=
  { db with tickets := db.tickets.map (fun t =>
      if t.rideId = rideId ∧ t.stopId = stopId ∧ t.status ≠ TicketStatus.BOARDED then
        { t with status := TicketStatus.ABSENT }
      else t) }

/-- TicketRepository.get_active_ticket: select tickets of the user with
status PENDING, scalar_one_or_none (raises MultipleResultsFound on more
than one row). -/
def TicketRepository.get_active_ticket (db : DB) (userId : Nat) :
    Except StoreErr (Option Ticket) :=
  match db.tickets.filter (fun t => t.userId == userId
      && t.status == TicketStatus.PENDING) with
  | [] => Except.ok none
  | [t] => Except.ok (some t)
  | _ => Except.error StoreErr.multipleResults

/-- TicketRepository.update_ticket_stop (src/app/repositories/ticket.py,
lines 100 to 107).  The statement is update(Ticket).filter_by(ticket_id=
ticket_id): the Ticket entity has no attribute named ticket_id (its
primary key column is id), so filter_by raises InvalidRequestError while
resolving the keyword, before execution; the UPDATE never runs and no row
changes. -/
def TicketRepository.update_ticket_stop (db : DB) (ticketId stopId : Nat) :
    Except StoreErr Unit :=
  Except.error StoreErr.invalidRequest

/-- TicketRepository.create: session.add plus commit.  The tickets table
has the unique constraint uq_user_ride on (user_id, ride_id); inserting a
second ticket for the same pair fails. -/
def TicketRepository.create (db : DB) (t : Ticket) : DB × Except StoreErr Unit :=
  if db.tickets.any (fun x => x.userId == t.userId && x.rideId == t.rideId) then
    (db, Except.error StoreErr.invalidRequest)
  else
    ({ db with tickets := db.tickets ++ [t] }, Except.ok ())

/-- StopService.get_stop_by_order (src/app/services/stop.py, lines 65 to
74): any SQLAlchemyError (and any other exception) from the repository is
caught, logged, and turned into None. -/
def StopService.get_stop_by_order (db : DB) (order : Nat) : Option Stop :=
  match StopRepository.get_by_order db order with
  | Except.ok s => some s
  | Except.error _ => none

/-- Domain error raised out of TicketService. -/
inductive TicketErr
  | rideNotFound
  | ticketServiceError
deriving DecidableEq

/-- Domain error raised out of RideService. -/
inductive RideErr
  | rideServiceError
deriving DecidableEq

/-- TicketService.get_active_ticket: repository failures are caught and
become None. -/
def TicketService.get_active_ticket (db : DB) (userId : Nat) : Option Ticket :=
  match TicketRepository.get_active_ticket db userId with
  | Except.ok t => t
  | Except.error _ => none

/-- TicketService.__get_first_active_ride: the first ride with status
IN_PROGRESS; NoResultFound (and any other failure) becomes None. -/
def TicketService.get_first_active_ride (db : DB) : Option Ride :=
  match RideRepository.get_by_status db RideStatus.IN_PROGRESS with
  | Except.ok r => some r
  | Except.error _ => none

/-- TicketService.has_waiting_passengers (src/app/services/ticket.py,
lines 127 to 136): returns count > 0, and catches SQLAlchemyError from the
count query, logging it and returning False.  It never raises on a store
failure (and the count query in fact always fails, see
TicketRepository.get_cnt_of_pending_tickets_by_stop). -/
def TicketService.has_waiting_passengers (db : DB) (stopId : Nat) : Bool :=
  match TicketRepository.get_cnt_of_pending_tickets_by_stop db stopId with
  | Except.ok c => decide (c > 0)
  | Except.error _ => false

/-- TicketService.mark_absent_not_boarded_tickets: delegates to the
repository (whose statement executes without error). -/
def TicketService.mark_absent_not_boarded_tickets (db : DB) (rideId stopId : Nat) : DB :=
  TicketRepository.mark_absent_not_boarded_tickets db rideId stopId

/-- TicketService.create_or_update_ticket (src/app/services/ticket.py,
lines 57 to 91).  The uuid4 primary key of a newly created ticket is
supplied as newTicketId.  When the user already holds a PENDING ticket the
update path calls TicketRepository.update_ticket_stop, whose
InvalidRequestError is caught by the except SQLAlchemyError clause and
re-raised as TicketServiceError. -/
def TicketService.create_or_update_ticket (db : DB) (stopId userId : Nat)
    (status : TicketStatus) (newTicketId : Nat) : DB × Except TicketErr Unit :=
  match TicketService.get_active_ticket db userId with
  | none =>
    match TicketService.get_first_active_ride db with
    | none => (db, Except.error TicketErr.rideNotFound)
    | some ride =>
      let t : Ticket :=
        { id := newTicketId, status := status, rideId := ride.id,
          stopId := stopId, userId := userId }
      match TicketRepository.create db t with
      | (db', Except.ok _) => (db', Except.ok ())
      | (db', Except.error _) => (db', Except.error TicketErr.ticketServiceError)
  | some tk =>
    match TicketRepository.update_ticket_stop db tk.id stopId with
    | Except.ok _ => (db, Except.ok ())
    | Except.error _ => (db, Except.error TicketErr.ticketServiceError)

/-- LocationService.find_stop_in_radius: the geodesic distance in meters
between the driver coordinate and the stop coordinate is computed by the
external geopy library; it enters the model as the argument distMeters.
The stop is returned iff the distance is within STOP_RADIUS_METERS. -/
def LocationService.find_stop_in_radius (distMeters : Nat) (stop : Stop) : Option Stop :=
  if distMeters ≤ STOP_RADIUS_METERS then some stop else none

/-- Whole-system state seen by RideService: the relational store, the
timer engine state, the log of countdown messages sent through the bot
port (chat id and text), and the redis last_gps debounce entries (driver
id to last accepted timestamp). -/
structure SysState where
  db : DB
  timers : TimerState
  sent : List (Nat × String)
  gpsDebounce : List (Nat × Nat)
deriving DecidableEq

/-- RideService._build_timer_text; the production text is an emoji plus
Russian words around the remaining seconds, rendered here in ASCII. -/
def RideService.build_timer_text (remaining : Nat) : String :=
  ("seconds left ") ++ toString remaining

/-- RideService.__get_chat_ids_by_ride: the chat ids are the ids of the
users holding a ticket on the ride. -/
def RideService.get_chat_ids_by_ride (db : DB) (rideId : Nat) : List Nat :=
  RideRepository.get_users_by_ride db rideId

/-- RideService._schedule_ride_timer (src/app/services/ride.py, lines 268
to 307).  It fetches the chat ids of the riders, sends one countdown
message per chat through the bot port (recording chat to message id; the
message id itself is not observed by any claim), and then writes
self.__timer_service.start_timer(...) WITHOUT await: start_timer is an
async def, so the expression only builds a coroutine object that is never
awaited and never scheduled -- its body (the duplicate guard, the redis
write and asyncio.create_task) never executes, and the engine state is
unchanged.  The method then sets ride.timer_started = True and persists
the ride, and logs that the timer was scheduled. -/
def RideService.schedule_ride_timer (s : SysState) (ride : Ride) (stop : Stop)
    (duration : Nat) : SysState :=
  let chatIds := RideService.get_chat_ids_by_ride s.db ride.id
  let sent' := s.sent ++ chatIds.map (fun c => (c, RideService.build_timer_text duration))
  let rideUpd : Ride := { ride with timerStarted := true }
  { s with db := RideRepository.save s.db rideUpd, sent := sent' }

/-- RideService.arrive_at_stop (src/app/services/ride.py, lines 155 to
193).  Control flow of the source: (1) return if ride.timer_started; (2)
resolve the next stop by order + 1, warn and return None if missing; (3)
update the ride stop pointers -- the repository call executes the UPDATE
and then raises ResourceClosedError, which the except SQLAlchemyError
clause re-raises as RideServiceError; (4, not reached on any input of
this repository) check has_waiting_passengers and return if False; (5,
not reached) schedule the wait timer for WAIT_TIMER_SECONDS. -/
def RideService.arrive_at_stop (s : SysState) (ride : Ride) (stop : Stop) :
    SysState × Except RideErr Unit :=
  if ride.timerStarted then (s, Except.ok ())
  else
    match StopService.get_stop_by_order s.db (stop.order + 1) with
    | none => (s, Except.ok ())
    | some next_stop =>
      match RideRepository.update_ride_stops s.db ride.id stop.id next_stop.id with
      | (db', Except.error _) =>
        ({ s with db := db' }, Except.error RideErr.rideServiceError)
      | (db', Except.ok _) =>
        let s' : SysState := { s with db := db' }
        if TicketService.has_waiting_passengers s'.db stop.id then
          (RideService.schedule_ride_timer s' ride stop WAIT_TIMER_SECONDS, Except.ok ())
        else (s', Except.ok ())

/-- RideService.on_wait_timer_expired (src/app/services/ride.py, lines 195
to 217).  The body writes self.__timer_service.start_timer(timer_id=
ride.id, timer_type=grace, duration=settings.BOARDED_GRACE_SECONDS,
on_expired=self.on_grace_timer_expired, payload={ride, stop, _on_expired})
WITHOUT await: the coroutine object is created and dropped, its body never
runs, so no grace countdown is registered, nothing is persisted, and the
whole system state is unchanged (the surrounding try only logs). -/
def RideService.on_wait_timer_expired (s : SysState) (ride : Ride) (stop : Stop) : SysState :=
  s

/-- RideService.on_grace_timer_expired (src/app/services/ride.py, lines
219 to 243): mark every not-BOARDED ticket of this ride at this stop
ABSENT, then clear ride.current_stop_id, reset ride.timer_started and save
the ride. -/
def RideService.on_grace_timer_expired (s : SysState) (ride : Ride) (stop : Stop) : SysState :=
  let db1 := TicketService.mark_absent_not_boarded_tickets s.db ride.id stop.id
  let rideUpd : Ride := { ride with currentStopId := none, timerStarted := false }
  { s with db := RideRepository.save db1 rideUpd }

/-- RideService.process_driver_location (src/app/services/ride.py, lines
100 to 153).  The module header reads from time import time, binding the
name time to the function itself; the body then evaluates time.time(),
an attribute access on that function object, which raises AttributeError
before the debounce read, the stop lookup, the radius check or
arrive_at_stop can run.  The blanket except Exception clause at the end of
the method logs the error and the method returns None.  The only statement
executed before that point is the live-share guard (return None when
location.live_period is None), which touches no state either. -/
def RideService.process_driver_location (s : SysState) (livePeriod : Option Nat)
    (latitude longitude : Int) (driverId : Nat) : SysState × Option Nat :=
  if livePeriod.isNone then
    (s, none)
  else
    (s, none)

/-- Fixture for C1: a ride in progress, two consecutive stops, one
pending ticket of user 100. -/
def exC1StopA : Stop := ⟨10, "A", 0, 0, 1, true⟩

/-- Fixture for C1: the second stop of the route. -/
def exC1StopB : Stop := ⟨11, "B", 0, 0, 2, true⟩

/-- Fixture for C1: the active ride, timer flag not set. -/
def exC1Ride : Ride := ⟨1, RideStatus.IN_PROGRESS, none, 10, 42, false⟩

/-- Fixture for C1: a PENDING ticket at the first stop. -/
def exC1Ticket : Ticket := ⟨5, TicketStatus.PENDING, 1, 10, 100⟩

/-- Fixture for C1: system state before the wait window is opened. -/
def exC1State : SysState :=
  ⟨⟨[exC1Ride], [exC1StopA, exC1StopB], [exC1Ticket]⟩, ⟨[], []⟩, [], []⟩

/-- Fixture for C2: first stop of the route. -/
def exC2StopA : Stop := ⟨10, "A", 0, 0, 1, true⟩

/-- Fixture for C2: second stop of the route (order 2 = order 1 + 1). -/
def exC2StopB : Stop := ⟨11, "B", 0, 0, 2, true⟩

/-- Fixture for C2: the arriving ride, timer flag not set. -/
def exC2Ride : Ride := ⟨1, RideStatus.IN_PROGRESS, none, 10, 42, false⟩

/-- Fixture for C2: a PENDING ticket of user 200 at the first stop. -/
def exC2Ticket : Ticket := ⟨6, TicketStatus.PENDING, 1, 10, 200⟩

/-- Fixture for C2: system state at the moment the driver enters the
radius of the first stop. -/
def exC2State : SysState :=
  ⟨⟨[exC2Ride], [exC2StopA, exC2StopB], [exC2Ticket]⟩, ⟨[], []⟩, [], []⟩

/-- Fixture for C3: the stop of the closing wait window. -/
def exC3Stop : Stop := ⟨20, "C", 0, 0, 3, true⟩

/-- Fixture for C3: the ride whose wait timer has just expired. -/
def exC3Ride : Ride := ⟨2, RideStatus.IN_PROGRESS, some 20, 21, 43, true⟩

/-- Fixture for C3: system state when the wait-expiry handler fires. -/
def exC3State : SysState :=
  ⟨⟨[exC3Ride], [exC3Stop], [⟨7, TicketStatus.PENDING, 2, 20, 300⟩]⟩, ⟨[], []⟩, [], []⟩

/-- Fixture for C4: the finalizing ride. -/
def exC4Ride : Ride := ⟨3, RideStatus.IN_PROGRESS, some 30, 31, 44, true⟩

/-- Fixture for C4: the stop being finalized. -/
def exC4Stop : Stop := ⟨30, "D", 0, 0, 4, true⟩

/-- Fixture for C4: a ticket still PENDING when the grace window closes. -/
def exC4TicketPending : Ticket := ⟨8, TicketStatus.PENDING, 3, 30, 400⟩

/-- Fixture for C4: a ticket whose holder boarded before grace expiry. -/
def exC4TicketBoarded : Ticket := ⟨9, TicketStatus.BOARDED, 3, 30, 401⟩

/-- Fixture for C4: state when the grace timer fires. -/
def exC4State : SysState :=
  ⟨⟨[exC4Ride], [exC4Stop], [exC4TicketPending, exC4TicketBoarded]⟩, ⟨[], []⟩, [], []⟩

/-- Fixture for C5: a payload as the wait-window scheduler would build it. -/
def exC5Payload : Payload :=
  ⟨⟨4, RideStatus.IN_PROGRESS, some 40, 41, 45, false⟩,
   ⟨40, "E", 0, 0, 5, true⟩, [(500, 900)], some HandlerTag.waitExpired⟩

/-- Fixture for C6: payload carried by both persisted records. -/
def exC6Payload : Payload :=
  ⟨⟨5, RideStatus.IN_PROGRESS, some 50, 51, 46, true⟩,
   ⟨50, "F", 0, 0, 6, true⟩, [], some HandlerTag.waitExpired⟩

/-- Fixture for C6: a persisted wait record already expired at restore
time (end_at 40, now 50). -/
def exC6RecPast : TimerRecord := ⟨TimerType.wait, 180, 40, exC6Payload⟩

/-- Fixture for C6: a persisted grace record still in the future at
restore time (end_at 80, now 50). -/
def exC6RecFut : TimerRecord := ⟨TimerType.grace, 60, 80, exC6Payload⟩

/-- Fixture for C6: engine state at process start, before any event is
served. -/
def exC6State : TimerState := ⟨[], [(1, exC6RecPast), (2, exC6RecFut)]⟩

/-- Fixture for C7: the driver's active ride awaiting stop 60. -/
def exC7Ride : Ride := ⟨6, RideStatus.IN_PROGRESS, none, 60, 47, false⟩

/-- Fixture for C7: the next target stop, located exactly where the
driver reports from. -/
def exC7Stop : Stop := ⟨60, "G", 10, 20, 7, true⟩

/-- Fixture for C7: system state with no debounce marker for the driver
(a first-ever, must-be-accepted update) and a PENDING passenger. -/
def exC7State : SysState :=
  ⟨⟨[exC7Ride], [exC7Stop], [⟨12, TicketStatus.PENDING, 6, 60, 600⟩]⟩,
   ⟨[], []⟩, [], []⟩

/-- Fixture for C8: a ride arriving at the final stop of the route. -/
def exC8Ride : Ride := ⟨7, RideStatus.IN_PROGRESS, none, 70, 48, false⟩

/-- Fixture for C8: the stop with the highest configured order (9). -/
def exC8StopLast : Stop := ⟨70, "H", 0, 0, 9, true⟩

/-- Fixture for C8: route whose orders end at 9, with a PENDING ticket at
the final stop. -/
def exC8State : SysState :=
  ⟨⟨[exC8Ride], [⟨69, "Gpre", 0, 0, 8, true⟩, exC8StopLast],
    [⟨13, TicketStatus.PENDING, 7, 70, 700⟩]⟩, ⟨[], []⟩, [], []⟩

/-- Fixture for the C8 witness: another final-stop arrival. -/
def exC8WRide : Ride := ⟨8, RideStatus.IN_PROGRESS, none, 80, 49, false⟩

/-- Fixture for the C8 witness: a stop with no successor configured. -/
def exC8WStop : Stop := ⟨80, "I", 0, 0, 11, true⟩

/-- Fixture for the C8 witness: its system state. -/
def exC8WState : SysState := ⟨⟨[exC8WRide], [exC8WStop], []⟩, ⟨[], []⟩, [], []⟩

/-- Fixture for C9: the active ride. -/
def exC9Ride : Ride := ⟨9, RideStatus.IN_PROGRESS, none, 90, 50, false⟩

/-- Fixture for C9: the PENDING ticket user 700 already holds, reserved
for stop 90. -/
def exC9Ticket : Ticket := ⟨14, TicketStatus.PENDING, 9, 90, 700⟩

/-- Fixture for C9: relational store with two stops to choose from. -/
def exC9DB : DB :=
  ⟨[exC9Ride], [⟨90, "J", 0, 0, 12, true⟩, ⟨91, "K", 0, 0, 13, true⟩],
   [exC9Ticket]⟩

/-- Fixture for C10 counterexample: the arriving ride. -/
def exC10Ride : Ride := ⟨11, RideStatus.IN_PROGRESS, none, 110, 52, false⟩

/-- Fixture for C10 counterexample: the arrival stop. -/
def exC10StopA : Stop := ⟨110, "L", 0, 0, 14, true⟩

/-- Fixture for C10 counterexample: its successor stop. -/
def exC10StopB : Stop := ⟨111, "M", 0, 0, 15, true⟩

/-- Fixture for C10 counterexample: state with a PENDING ticket at the
arrival stop. -/
def exC10State : SysState :=
  ⟨⟨[exC10Ride], [exC10StopA, exC10StopB],
    [⟨15, TicketStatus.PENDING, 11, 110, 800⟩]⟩, ⟨[], []⟩, [], []⟩

/-- Fixture for the C10 witness: the arriving ride. -/
def exC10WRide : Ride := ⟨12, RideStatus.IN_PROGRESS, none, 120, 53, false⟩

/-- Fixture for the C10 witness: the arrival stop. -/
def exC10WStopA : Stop := ⟨120, "N", 0, 0, 16, true⟩

/-- Fixture for the C10 witness: its successor. -/
def exC10WStopB : Stop := ⟨121, "O", 0, 0, 17, true⟩

/-- Fixture for the C10 witness: state with a PENDING ticket at the
arrival stop. -/
def exC10WState : SysState :=
  ⟨⟨[exC10WRide], [exC10WStopA, exC10WStopB],
    [⟨16, TicketStatus.PENDING, 12, 120, 900⟩]⟩, ⟨[], []⟩, [], []⟩

theorem lookupKey_setKey_self {α : Type} (k : Nat) (v : α) (l : List (Nat × α)) :
    lookupKey k (setKey k v l) = some v := by
  simp [setKey, lookupKey]

theorem lookupKey_eraseKey_self {α : Type} (k : Nat) (l : List (Nat × α)) :
    lookupKey k (eraseKey k l) = none := by
  induction l with
  | nil => rfl
  | cons p rest ih =>
    by_cases h : p.1 = k
    · simpa [eraseKey, h] using ih
    · simpa [eraseKey, lookupKey, h] using ih

theorem lookupKey_eraseKey_ne {α : Type} (k k' : Nat) (l : List (Nat × α))
    (h : k' ≠ k) : lookupKey k' (eraseKey k l) = lookupKey k' l := by
  induction l with
  | nil => rfl
  | cons p rest ih =>
    simp only [eraseKey]
    by_cases hp : p.1 = k
    · rw [if_pos hp, ih]
      have hp' : p.1 ≠ k' := by omega
      simp [lookupKey, hp']
    · rw [if_neg hp]
      simp only [lookupKey]
      by_cases hk : p.1 = k'
      · rw [if_pos hk, if_pos hk]
      · rw [if_neg hk, if_neg hk, ih]

theorem lookupKey_setKey_ne {α : Type} (k k' : Nat) (v : α) (l : List (Nat × α))
    (h : k' ≠ k) : lookupKey k' (setKey k v l) = lookupKey k' l := by
  simp only [setKey, lookupKey]
  rw [if_neg (by omega)]
  exact lookupKey_eraseKey_ne k k' l h

theorem countKey_eraseKey_self {α : Type} (k : Nat) (l : List (Nat × α)) :
    countKey k (eraseKey k l) = 0 := by
  induction l with
  | nil => rfl
  | cons p rest ih =>
    by_cases hp : p.1 = k
    · simpa [eraseKey, hp] using ih
    · simpa [eraseKey, countKey, hp] using ih

theorem countKey_setKey_self {α : Type} (k : Nat) (v : α) (l : List (Nat × α)) :
    countKey k (setKey k v l) = 1 := by
  simp [setKey, countKey, countKey_eraseKey_self]

theorem RideRepository.save_tickets (db : DB) (r : Ride) :
    (RideRepository.save db r).tickets = db.tickets := by
  unfold RideRepository.save
  split <;> rfl

theorem RideRepository.save_rides_id (db : DB) (r : Ride) :
    ∀ x ∈ (RideRepository.save db r).rides, x.id = r.id → x = r := by
  intro x hx hid
  unfold RideRepository.save at hx
  by_cases h : db.rides.any (fun y => y.id == r.id) = true
  · rw [if_pos h] at hx
    simp only [List.mem_map] at hx
    obtain ⟨y, hy, hxy⟩ := hx
    by_cases hyid : y.id = r.id
    · rw [if_pos hyid] at hxy
      exact hxy.symm
    · rw [if_neg hyid] at hxy
      exact absurd (hxy ▸ hid) hyid
  · rw [if_neg h] at hx
    rcases List.mem_append.mp hx with hx1 | hx2
    · exfalso
      apply h
      simp only [List.any_eq_true]
      exact ⟨x, hx1, by simpa using hid⟩
    · simpa using hx2

theorem lookupKey_mem_keys {α : Type} (k : Nat) (v : α) (l : List (Nat × α))
    (h : lookupKey k l = some v) : k ∈ l.map Prod.fst := by
  induction l with
  | nil => simp [lookupKey] at h
  | cons p rest ih =>
    simp only [lookupKey] at h
    by_cases hp : p.1 = k
    · simp [hp]
    · rw [if_neg hp] at h
      simp only [List.map_cons, List.mem_cons]
      exact Or.inr (ih h)

/-- C1: the claim states that timer_started is true iff exactly one live
countdown is registered for the ride in the timer engine.  The code
violates this: RideService._schedule_ride_timer (the arrival path that
opens a wait window) sets timer_started = true and persists the ride while
registering zero countdowns, because its start_timer call is an
un-awaited coroutine that never runs.  After the call the persisted ride
has the flag set and the engine holds no timer (in-memory or durable) for
the ride id. -/
theorem schedule_sets_flag_without_live_countdown :
    ∃ r, r ∈ (RideService.schedule_ride_timer exC1State exC1Ride exC1StopA
          WAIT_TIMER_SECONDS).db.rides
      ∧ r.timerStarted = true
      ∧ countKey r.id (RideService.schedule_ride_timer exC1State exC1Ride exC1StopA
          WAIT_TIMER_SECONDS).timers.activeTimers = 0
      ∧ (RideService.schedule_ride_timer exC1State exC1Ride exC1StopA
          WAIT_TIMER_SECONDS).timers = exC1State.timers := by
  refine ⟨{ exC1Ride with timerStarted := true }, ?_, rfl, rfl, rfl⟩
  decide

/-- C2: the claim describes the full wait-window opening on arrival.  On
this repository the call instead aborts: update_ride_stops executes the
pointer UPDATE and then raises (scalar_one on a statement built with an
empty returning()), which arrive_at_stop re-raises as RideServiceError.
The result below shows the whole outcome: the stop pointers were advanced
in the session, but the caller receives the error, no countdown message
was sent, no timer (live or durable) was registered, and timer_started
was never set. -/
theorem arrive_with_pending_ticket_aborts :
    RideService.arrive_at_stop exC2State exC2Ride exC2StopA
      = ({ exC2State with
            db := { exC2State.db with
              rides := [{ exC2Ride with currentStopId := some 10, nextStopId := 11 }] } },
         Except.error RideErr.rideServiceError) := by
  rfl

/-- C3: the claim states that the wait-expiry handler registers a live
grace countdown for BOARDED_GRACE_SECONDS under the ride id.  The code
passes exactly those arguments to start_timer but never awaits the call,
so the coroutine never executes: afterwards the system state is unchanged
and no countdown (and no durable record) exists under the ride id. -/
theorem wait_expiry_registers_no_grace_timer :
    RideService.on_wait_timer_expired exC3State exC3Ride exC3Stop = exC3State
    ∧ countKey exC3Ride.id (RideService.on_wait_timer_expired exC3State exC3Ride
        exC3Stop).timers.activeTimers = 0
    ∧ lookupKey exC3Ride.id (RideService.on_wait_timer_expired exC3State exC3Ride
        exC3Stop).timers.redis = none := by
  exact ⟨rfl, rfl, rfl⟩

/-- C4: when the grace timer expires, on_grace_timer_expired marks every
ticket of this ride at this stop that is not BOARDED as ABSENT, leaves
BOARDED tickets (and tickets of other rides or stops) untouched, clears
the ride's current-stop pointer and resets timer_started to false, which
is exactly the guard arrive_at_stop checks for the next arrival. -/
theorem grace_expiry_finalizes (s : SysState) (ride : Ride) (stop : Stop) :
    (∀ t ∈ s.db.tickets, t.rideId = ride.id → t.stopId = stop.id →
        t.status ≠ TicketStatus.BOARDED →
        { t with status := TicketStatus.ABSENT } ∈
          (RideService.on_grace_timer_expired s ride stop).db.tickets)
    ∧ (∀ t ∈ s.db.tickets, t.status = TicketStatus.BOARDED →
        t ∈ (RideService.on_grace_timer_expired s ride stop).db.tickets)
    ∧ (∀ t ∈ s.db.tickets, t.rideId ≠ ride.id ∨ t.stopId ≠ stop.id →
        t ∈ (RideService.on_grace_timer_expired s ride stop).db.tickets)
    ∧ (∀ r ∈ (RideService.on_grace_timer_expired s ride stop).db.rides,
        r.id = ride.id → r.currentStopId = none ∧ r.timerStarted = false) := by
  have htickets : (RideService.on_grace_timer_expired s ride stop).db.tickets
      = s.db.tickets.map (fun t =>
          if t.rideId = ride.id ∧ t.stopId = stop.id ∧ t.status ≠ TicketStatus.BOARDED then
            { t with status := TicketStatus.ABSENT } else t) := by
    unfold RideService.on_grace_timer_expired
    rw [RideRepository.save_tickets]
    rfl
  refine ⟨?_, ?_, ?_, ?_⟩
  · intro t ht h1 h2 h3
    rw [htickets]
    exact List.mem_map.mpr ⟨t, ht, by simp [h1, h2, h3]⟩
  · intro t ht hb
    rw [htickets]
    exact List.mem_map.mpr ⟨t, ht, by simp [hb]⟩
  · intro t ht hor
    rw [htickets]
    have hcond : ¬(t.rideId = ride.id ∧ t.stopId = stop.id
        ∧ t.status ≠ TicketStatus.BOARDED) := by
      rcases hor with h | h
      · exact fun hc => h hc.1
      · exact fun hc => h hc.2.1
    exact List.mem_map.mpr ⟨t, ht, by simp [hcond]⟩
  · intro r hr hid
    have hr' : r ∈ (RideRepository.save
        (TicketService.mark_absent_not_boarded_tickets s.db ride.id stop.id)
        { ride with currentStopId := none, timerStarted := false }).rides := hr
    have := RideRepository.save_rides_id
        (TicketService.mark_absent_not_boarded_tickets s.db ride.id stop.id)
        { ride with currentStopId := none, timerStarted := false } r hr' hid
    rw [this]
    exact ⟨rfl, rfl⟩

/-- C4 witness: at the concrete state, the PENDING ticket flips to ABSENT,
the BOARDED ticket survives untouched, and the ride saved by the handler
has a cleared pointer and a reset flag. -/
theorem grace_expiry_finalizes_witness :
    ({ exC4TicketPending with status := TicketStatus.ABSENT } ∈
        (RideService.on_grace_timer_expired exC4State exC4Ride exC4Stop).db.tickets)
    ∧ (exC4TicketBoarded ∈
        (RideService.on_grace_timer_expired exC4State exC4Ride exC4Stop).db.tickets)
    ∧ (({ exC4Ride with currentStopId := none, timerStarted := false } : Ride).currentStopId
          = none
      ∧ ({ exC4Ride with currentStopId := none, timerStarted := false } : Ride).timerStarted
          = false) := by
  have h := grace_expiry_finalizes exC4State exC4Ride exC4Stop
  refine ⟨h.1 exC4TicketPending (by decide) (by decide) (by decide) (by decide),
          h.2.1 exC4TicketBoarded (by decide) (by decide), ?_⟩
  exact h.2.2.2 { exC4Ride with currentStopId := none, timerStarted := false }
    (by decide) (by decide)

/-- C5: the duplicate-registration guard of TimerService.start_timer.
Starting from a state with no countdown under the timer id, the first
call registers exactly one live countdown (and one durable record);
a second call with the same timer id, regardless of its other arguments,
returns at the guard: the state is exactly the state after the first
call, so no new durable record is written and no second task is
created. -/
theorem start_timer_second_call_noop (s : TimerState) (tid : Nat)
    (ty1 ty2 : TimerType) (d1 d2 : Nat) (tick1 tick2 : Bool)
    (p1 p2 : Payload) (now1 now2 : Nat)
    (h : lookupKey tid s.activeTimers = none) :
    TimerService.start_timer (TimerService.start_timer s tid ty1 d1 tick1 p1 now1)
        tid ty2 d2 tick2 p2 now2
      = TimerService.start_timer s tid ty1 d1 tick1 p1 now1
    ∧ countKey tid (TimerService.start_timer s tid ty1 d1 tick1 p1 now1).activeTimers = 1
    ∧ countKey tid (TimerService.start_timer s tid ty1 d1 tick1 p1 now1).redis = 1 := by
  have hfirst : TimerService.start_timer s tid ty1 d1 tick1 p1 now1
      = { activeTimers := setKey tid
            { duration := d1, hasTick := tick1, payload := p1 } s.activeTimers,
          redis := setKey tid
            { timerType := ty1, duration := d1, endAt := now1 + d1, payload := p1 }
            s.redis } := by
    unfold TimerService.start_timer
    rw [h]
    rfl
  refine ⟨?_, ?_, ?_⟩
  · rw [hfirst]
    unfold TimerService.start_timer
    rw [lookupKey_setKey_self]
    rfl
  · rw [hfirst]
    exact countKey_setKey_self tid _ s.activeTimers
  · rw [hfirst]
    exact countKey_setKey_self tid _ s.redis

/-- C5 witness: starting and then re-starting timer id 7 from the empty
engine leaves exactly one live countdown and one durable record, the
second call being a no-op. -/
theorem start_timer_second_call_noop_witness :
    lookupKey 7 (⟨[], []⟩ : TimerState).activeTimers = none
    ∧ (TimerService.start_timer
          (TimerService.start_timer ⟨[], []⟩ 7 TimerType.wait 180 true exC5Payload 1000)
          7 TimerType.grace 30 false exC5Payload 1100
        = TimerService.start_timer ⟨[], []⟩ 7 TimerType.wait 180 true exC5Payload 1000
      ∧ countKey 7 (TimerService.start_timer ⟨[], []⟩ 7 TimerType.wait 180 true
          exC5Payload 1000).activeTimers = 1
      ∧ countKey 7 (TimerService.start_timer ⟨[], []⟩ 7 TimerType.wait 180 true
          exC5Payload 1000).redis = 1) := by
  exact ⟨rfl, start_timer_second_call_noop ⟨[], []⟩ 7 TimerType.wait TimerType.grace
    180 30 true false exC5Payload exC5Payload 1000 1100 rfl⟩

theorem countExpired_cons_ne (k i : Nat) (tag : Option HandlerTag)
    (evs : List RestoreEvent) (h : i ≠ k) :
    countExpired k (RestoreEvent.expiredInvoked i tag :: evs)
      = countExpired k evs := by
  have hb : (i == k) = false := by simp [h]
  simp [countExpired, List.filter, isExpiredFor, hb]

theorem countExpired_cons_self (k : Nat) (tag : Option HandlerTag)
    (evs : List RestoreEvent) :
    countExpired k (RestoreEvent.expiredInvoked k tag :: evs)
      = countExpired k evs + 1 := by
  have hb : (k == k) = true := by simp
  simp [countExpired, List.filter, isExpiredFor, hb]

theorem restoreLoop_active_stable (now : Nat) (ids : List Nat) (s : TimerState)
    (k : Nat) (h : k ∉ ids) :
    lookupKey k (restoreLoop now ids s).1.activeTimers
      = lookupKey k s.activeTimers := by
  induction ids generalizing s with
  | nil => rfl
  | cons a rest ih =>
    have hka : k ≠ a := fun he => h (by simp [he])
    have hrest : k ∉ rest := fun hm => h (List.mem_cons_of_mem a hm)
    simp only [restoreLoop]
    cases hl : lookupKey a s.redis with
    | none => exact ih _ hrest
    | some recd =>
      by_cases hexp : recd.endAt ≤ now
      · simp only [if_pos hexp]
        exact ih _ hrest
      · simp only [if_neg hexp]
        rw [ih _ hrest]
        exact lookupKey_setKey_ne a k _ s.activeTimers hka

theorem restoreLoop_redis_stable (now : Nat) (ids : List Nat) (s : TimerState)
    (k : Nat) (h : k ∉ ids) :
    lookupKey k (restoreLoop now ids s).1.redis = lookupKey k s.redis := by
  induction ids generalizing s with
  | nil => rfl
  | cons a rest ih =>
    have hka : k ≠ a := fun he => h (by simp [he])
    have hrest : k ∉ rest := fun hm => h (List.mem_cons_of_mem a hm)
    simp only [restoreLoop]
    cases hl : lookupKey a s.redis with
    | none => exact ih _ hrest
    | some recd =>
      by_cases hexp : recd.endAt ≤ now
      · simp only [if_pos hexp]
        rw [ih _ hrest]
        exact lookupKey_eraseKey_ne a k s.redis hka
      · simp only [if_neg hexp]
        exact ih _ hrest

theorem restoreLoop_events_stable (now : Nat) (ids : List Nat) (s : TimerState)
    (k : Nat) (h : k ∉ ids) :
    countExpired k (restoreLoop now ids s).2 = 0 := by
  induction ids generalizing s with
  | nil => rfl
  | cons a rest ih =>
    have hka : k ≠ a := fun he => h (by simp [he])
    have hrest : k ∉ rest := fun hm => h (List.mem_cons_of_mem a hm)
    simp only [restoreLoop]
    cases hl : lookupKey a s.redis with
    | none => exact ih _ hrest
    | some recd =>
      by_cases hexp : recd.endAt ≤ now
      · simp only [if_pos hexp]
        rw [countExpired_cons_ne k a recd.payload.onExpiredTag _
          (fun he => hka he.symm)]
        exact ih _ hrest
      · simp only [if_neg hexp]
        exact ih _ hrest

theorem restoreLoop_processes (now : Nat) (ids : List Nat) (s : TimerState)
    (id : Nat) (recd : TimerRecord)
    (hin : id ∈ ids) (hnd : ids.Nodup)
    (hlk : lookupKey id s.redis = some recd) :
    ((recd.endAt ≤ now →
        lookupKey id (restoreLoop now ids s).1.redis = none
        ∧ countExpired id (restoreLoop now ids s).2 = 1)
     ∧ (now < recd.endAt →
        lookupKey id (restoreLoop now ids s).1.activeTimers
          = some { duration := recd.endAt - now, hasTick := false,
                   payload := recd.payload })) := by
  induction ids generalizing s with
  | nil => cases hin
  | cons a rest ih =>
    have hnd' : a ∉ rest ∧ rest.Nodup := by
      constructor
      · exact (List.nodup_cons.mp hnd).1
      · exact (List.nodup_cons.mp hnd).2
    by_cases hai : a = id
    · subst hai
      simp only [restoreLoop, hlk]
      constructor
      · intro hexp
        simp only [if_pos hexp]
        constructor
        · rw [restoreLoop_redis_stable now rest _ a hnd'.1]
          exact lookupKey_eraseKey_self a s.redis
        · rw [countExpired_cons_self]
          rw [restoreLoop_events_stable now rest
            { s with redis := eraseKey a s.redis } a hnd'.1]
      · intro hfut
        have hexp : ¬recd.endAt ≤ now := by omega
        simp only [if_neg hexp]
        rw [restoreLoop_active_stable now rest _ a hnd'.1]
        exact lookupKey_setKey_self a _ s.activeTimers
    · have hin' : id ∈ rest := by
        cases List.mem_cons.mp hin with
        | inl h => exact absurd h.symm hai
        | inr h => exact h
      simp only [restoreLoop]
      cases hl : lookupKey a s.redis with
      | none => exact ih _ hin' hnd'.2 hlk
      | some recd' =>
        by_cases hexp : recd'.endAt ≤ now
        · simp only [if_pos hexp]
          have hlk' : lookupKey id
              ({ s with redis := eraseKey a s.redis } : TimerState).redis
                = some recd := by
            have : id ≠ a := fun he => hai he.symm
            simpa [lookupKey_eraseKey_ne a id s.redis this] using hlk
          have hrec := ih { s with redis := eraseKey a s.redis } hin' hnd'.2 hlk'
          constructor
          · intro hpast
            refine ⟨(hrec.1 hpast).1, ?_⟩
            rw [countExpired_cons_ne id a recd'.payload.onExpiredTag _ hai]
            exact (hrec.1 hpast).2
          · exact fun hfut => hrec.2 hfut
        · simp only [if_neg hexp]
          exact ih _ hin' hnd'.2 hlk

/-- C6: restore_all_timers over the persisted records.  For a record
whose end_at is at or before now, the durable record is deleted and the
stored expiry path (the handler referenced in the payload) is invoked
exactly once, synchronously within the restore run.  For a record whose
end_at is in the future, a live countdown is recreated under the same id
with duration end_at - now and with no tick callback, and the event trace
of that restored countdown contains no tick at all: its only event is the
expiry, exactly end_at - now seconds after the restore (hence no earlier
than that). -/
theorem restore_all_timers_spec (s : TimerState) (now id : Nat)
    (recd : TimerRecord)
    (hnd : (s.redis.map Prod.fst).Nodup)
    (hlk : lookupKey id s.redis = some recd) :
    ((recd.endAt ≤ now →
        lookupKey id (TimerService.restore_all_timers s now).1.redis = none
        ∧ countExpired id (TimerService.restore_all_timers s now).2 = 1)
     ∧ (now < recd.endAt →
        lookupKey id (TimerService.restore_all_timers s now).1.activeTimers
          = some { duration := recd.endAt - now, hasTick := false,
                   payload := recd.payload }
        ∧ runTrace { duration := recd.endAt - now, hasTick := false,
                     payload := recd.payload }
          = [RunEvent.expired (recd.endAt - now)])) := by
  have hin : id ∈ s.redis.map Prod.fst := lookupKey_mem_keys id recd s.redis hlk
  have h := restoreLoop_processes now (s.redis.map Prod.fst) s id recd hin hnd hlk
  exact ⟨h.1, fun hfut => ⟨h.2 hfut, by simp [runTrace]⟩⟩

/-- C6 witness: restoring at now = 50 deletes the expired record 1 and
fires its expiry path exactly once, and recreates record 2 as a live
countdown of 30 seconds whose trace is a single expiry event. -/
theorem restore_all_timers_spec_witness :
    (lookupKey 1 (TimerService.restore_all_timers exC6State 50).1.redis = none
      ∧ countExpired 1 (TimerService.restore_all_timers exC6State 50).2 = 1)
    ∧ (lookupKey 2 (TimerService.restore_all_timers exC6State 50).1.activeTimers
        = some { duration := exC6RecFut.endAt - 50, hasTick := false,
                 payload := exC6Payload }
      ∧ runTrace { duration := exC6RecFut.endAt - 50, hasTick := false,
                   payload := exC6Payload }
        = [RunEvent.expired (exC6RecFut.endAt - 50)]) := by
  have h1 := restore_all_timers_spec exC6State 50 1 exC6RecPast (by decide) (by decide)
  have h2 := restore_all_timers_spec exC6State 50 2 exC6RecFut (by decide) (by decide)
  exact ⟨h1.1 (by decide), h2.2 (by decide)⟩

/-- C7: the claim describes per-driver debouncing and, for accepted
updates, the geoproximity check and arrive_at_stop.  The code never gets
there: process_driver_location evaluates time.time() although the module
imported the function itself (from time import time), so every live
update raises AttributeError, which the blanket except clause swallows,
returning None.  Here a live update from a driver with no debounce
marker, at the exact coordinates of the next stop, is discarded: the
result is None and the entire state (ride, debounce keys, timers,
messages) is unchanged, where the claim requires the stop id returned and
the arrival processed. -/
theorem process_driver_location_discards_every_update :
    RideService.process_driver_location exC7State (some 3600) 10 20 47
      = (exC7State, none) := by
  rfl

/-- C8 counterexample: the claim says an arrival at a stop with no
configured successor is aborted with a defined configuration error
surfaced to the caller, not a silent return.  At this concrete arrival
the call returns Except.ok () -- no error of any kind reaches the caller
-- and the state (so also the ride pointers) is returned untouched: the
repository's NoResultFound is swallowed into None by
StopService.get_stop_by_order and arrive_at_stop merely logs a warning. -/
theorem arrive_no_next_stop_is_silent :
    RideService.arrive_at_stop exC8State exC8Ride exC8StopLast
      = (exC8State, Except.ok ()) := by
  rfl

/-- C8 amended: when no stop with order + 1 exists, arrive_at_stop does
not advance the ride pointers, but it also surfaces no error: the lookup
failure becomes None inside the stop service and the arrival returns
normally (a warning is only logged). -/
theorem arrive_no_next_stop_returns_ok (s : SysState) (ride : Ride) (stop : Stop)
    (hflag : ride.timerStarted = false)
    (hnone : ∀ st ∈ s.db.stops, st.order ≠ stop.order + 1) :
    RideService.arrive_at_stop s ride stop = (s, Except.ok ()) := by
  have hfilter : s.db.stops.filter (fun st => st.order == stop.order + 1) = [] := by
    rw [List.filter_eq_nil_iff]
    intro st hst
    simpa using hnone st hst
  have hlookup : StopService.get_stop_by_order s.db (stop.order + 1) = none := by
    unfold StopService.get_stop_by_order StopRepository.get_by_order
    rw [hfilter]
  unfold RideService.arrive_at_stop
  rw [hflag, hlookup]
  rfl

/-- C8 witness: the amended statement evaluated at a concrete route end. -/
theorem arrive_no_next_stop_returns_ok_witness :
    RideService.arrive_at_stop exC8WState exC8WRide exC8WStop
      = (exC8WState, Except.ok ()) :=
  arrive_no_next_stop_returns_ok exC8WState exC8WRide exC8WStop rfl (by decide)

/-- C9: the claim says that a user who already holds a PENDING ticket and
re-selects a stop gets that ticket's stop updated.  The update path
instead always fails: update_ticket_stop builds
update(Ticket).filter_by(ticket_id=...) although the Ticket entity has no
attribute ticket_id, so InvalidRequestError is raised at query
construction, caught by the service and re-raised as TicketServiceError.
Re-selecting stop 91 leaves the store byte-for-byte unchanged (the ticket
still points at stop 90) and surfaces the domain error. -/
theorem retarget_existing_ticket_raises :
    TicketService.create_or_update_ticket exC9DB 91 700 TicketStatus.PENDING 99
      = (exC9DB, Except.error TicketErr.ticketServiceError) := by
  rfl

/-- C10 counterexample: the claim says that on a store failure in the
pending-ticket count the arrival proceeds silently (pointer advanced, no
timer, no error).  At this concrete arrival, with a PENDING ticket
present and a successor stop configured, the arrival is not silent: it
aborts with RideServiceError, raised inside update_ride_stops before the
pending-count query is ever reached. -/
theorem arrival_with_pending_ticket_raises :
    (RideService.arrive_at_stop exC10State exC10Ride exC10StopA).2
      = Except.error RideErr.rideServiceError := by
  rfl

/-- C10 amended: has_waiting_passengers itself never raises -- every
store failure of the count query becomes false, and the count query in
fact always fails (it compares the relationship Ride.current_stop to a
uuid) -- but the silent-suppression scenario of the claim is unreachable:
any arrival that passes the re-entrancy guard and finds a successor stop
aborts with RideServiceError out of update_ride_stops, after the pointer
UPDATE executed but before the pending count is consulted; no timer is
registered, no message is sent, timer_started stays as it was. -/
theorem has_waiting_false_and_arrival_aborts
    (db : DB) (stopId : Nat) (s : SysState) (ride : Ride) (stop : Stop)
    (next : Stop)
    (hflag : ride.timerStarted = false)
    (hnext : StopService.get_stop_by_order s.db (stop.order + 1) = some next) :
    TicketService.has_waiting_passengers db stopId = false
    ∧ (RideService.arrive_at_stop s ride stop).2
        = Except.error RideErr.rideServiceError
    ∧ (RideService.arrive_at_stop s ride stop).1.timers = s.timers
    ∧ (RideService.arrive_at_stop s ride stop).1.sent = s.sent
    ∧ ∀ r ∈ (RideService.arrive_at_stop s ride stop).1.db.rides,
        r.id = ride.id →
        r.currentStopId = some stop.id ∧ r.nextStopId = next.id := by
  have harr : RideService.arrive_at_stop s ride stop
      = ({ s with db := { s.db with rides := s.db.rides.map (fun r =>
            if r.id = ride.id then
              { r with currentStopId := some stop.id, nextStopId := next.id }
            else r) } },
         Except.error RideErr.rideServiceError) := by
    unfold RideService.arrive_at_stop
    rw [hflag, hnext]
    rfl
  refine ⟨rfl, ?_, ?_, ?_, ?_⟩
  · rw [harr]
  · rw [harr]
  · rw [harr]
  · intro r hr hid
    rw [harr] at hr
    simp only [List.mem_map] at hr
    obtain ⟨y, hy, hxy⟩ := hr
    by_cases hyid : y.id = ride.id
    · rw [if_pos hyid] at hxy
      rw [← hxy]
      exact ⟨rfl, rfl⟩
    · rw [if_neg hyid] at hxy
      exact absurd (hxy ▸ hid) hyid

/-- C10 witness: the amended statement evaluated at a concrete arrival. -/
theorem has_waiting_false_and_arrival_aborts_witness :
    TicketService.has_waiting_passengers exC10WState.db 120 = false
    ∧ (RideService.arrive_at_stop exC10WState exC10WRide exC10WStopA).2
        = Except.error RideErr.rideServiceError
    ∧ (RideService.arrive_at_stop exC10WState exC10WRide exC10WStopA).1.timers
        = exC10WState.timers
    ∧ (RideService.arrive_at_stop exC10WState exC10WRide exC10WStopA).1.sent
        = exC10WState.sent
    ∧ (({ exC10WRide with currentStopId := some 120, nextStopId := 121 } : Ride).currentStopId
          = some exC10WStopA.id
      ∧ ({ exC10WRide with currentStopId := some 120, nextStopId := 121 } : Ride).nextStopId
          = exC10WStopB.id) := by
  have h := has_waiting_false_and_arrival_aborts exC10WState.db 120 exC10WState
    exC10WRide exC10WStopA exC10WStopB rfl (by decide)
  exact ⟨h.1, h.2.1, h.2.2.1, h.2.2.2.1,
    h.2.2.2.2 ({ exC10WRide with currentStopId := some 120, nextStopId := 121 })
      (by decide) (by decide)⟩
